import Mathlib

/-!
Verification of the VoiceDetector service (shallow embedding).

The embedding models the repository's Python sources:
* `utils.py`   — `decode_audio` (base64 with data-URI header stripping) and
  `trim_audio` (decode / truncate / re-encode through an abstract MP3 codec);
* `detector.py` — feature rounding, the forensics prompt, and the
  `analyze_audio` retry loop with its fallback results;
* `main.py`    — the `detect_voice` endpoint guards and orchestration.

External collaborators (the Groq client, librosa, pydub) are modelled as
explicit parameters: an oracle giving each LLM attempt's outcome, a function
giving librosa's raw feature values, and a codec record for pydub.
Python's `base64.b64decode` (with its default `validate=False`) is modelled
faithfully after CPython's `binascii.a2b_base64` in non-strict mode:
characters outside the base64 alphabet are skipped, a pad sequence that
completes a quad ends the decode, and leftover characters at the end raise.
Machine bytes are `Nat` values; strings are Lean strings.
-/

namespace VoiceDetector

/-- Index of a character in the standard base64 alphabet, `none` for
characters outside it (CPython's `table_a2b_base64`). -/
def b64Index (c : Char) : Option Nat :=
  if 'A' ≤ c ∧ c ≤ 'Z' then some (c.toNat - 'A'.toNat)
  else if 'a' ≤ c ∧ c ≤ 'z' then some (c.toNat - 'a'.toNat + 26)
  else if '0' ≤ c ∧ c ≤ '9' then some (c.toNat - '0'.toNat + 52)
  else if c = '+' then some 62
  else if c = '/' then some 63
  else none

/-- Core loop of CPython's `binascii.a2b_base64` in non-strict mode
(the default used by `base64.b64decode`): state is the position inside the
current quad, the bits accumulated so far, and the count of pending pad
characters.  Invalid characters are skipped; a pad sequence that completes a
quad emits the leftover bytes and ignores the rest of the input; leftover
data characters at the end are an error. -/
def a2bBase64 : List Char → Nat → Nat → Nat → List Nat → Except String (List Nat)
  | [], quadPos, _, _, out =>
    if quadPos == 0 then .ok out
    else if quadPos == 1 then
      .error "Invalid base64-encoded string: number of data characters cannot be 1 more than a multiple of 4"
    else .error "Incorrect padding"
  | c :: rest, quadPos, leftchar, pads, out =>
    if c = '=' then
      if 2 ≤ quadPos ∧ 4 ≤ quadPos + pads + 1 then
        if quadPos == 2 then .ok (out ++ [leftchar / 16])
        else .ok (out ++ [leftchar / 1024, leftchar / 4 % 256])
      else if 2 ≤ quadPos then a2bBase64 rest quadPos leftchar (pads + 1) out
      else a2bBase64 rest quadPos leftchar pads out
    else
      match b64Index c with
      | none => a2bBase64 rest quadPos leftchar pads out
      | some v =>
        let acc := leftchar * 64 + v
        if quadPos == 3 then
          a2bBase64 rest 0 0 0 (out ++ [acc / 65536, acc / 256 % 256, acc % 256])
        else a2bBase64 rest (quadPos + 1) acc 0 out

/-- Model of Python `base64.b64decode` with default arguments. -/
def b64decode (s : String) : Except String (List Nat) :=
  a2bBase64 s.data 0 0 0 []

/-- Splitting worker for Python `str.split(sep)` on character lists.  At
each position, if `sep` starts there the current part ends and the scan
resumes after `sep`; otherwise the character joins the current part.  The
fuel argument (instantiated with the list's length) only makes the
recursion structural. -/
def pySplitAux (sep : List Char) : Nat → List Char → List (List Char)
  | _, [] => [[]]
  | 0, l => [l]
  | fuel + 1, c :: rest =>
    if sep.isPrefixOf (c :: rest) then
      [] :: pySplitAux sep fuel (List.drop sep.length (c :: rest))
    else
      match pySplitAux sep fuel rest with
      | [] => [[c]]
      | x :: xs => (c :: x) :: xs

/-- Model of Python `str.split(sep)` for a non-empty separator. -/
def pySplit (sep s : String) : List String :=
  (pySplitAux sep.data s.data.length s.data).map String.mk

/-- Header-stripping step of `decode_audio` (utils.py lines 10-12): Python
checks membership of the substring and then takes `split("base64,")[1]`,
i.e. the segment between the first and the second occurrence. -/
def stripB64Header (s : String) : String :=
  let parts := pySplit "base64," s
  if 2 ≤ parts.length then parts.getD 1 "" else s

/-- Model of `decode_audio` (utils.py lines 5-16): strip the data-URI
header, base64-decode, and wrap any decode failure in a ValueError whose
message carries the underlying cause. -/
def decode_audio (s : String) : Except String (List Nat) :=
  match b64decode (stripB64Header s) with
  | .ok bs => .ok bs
  | .error e => .error ("Invalid Base64 audio data: " ++ e)

/-- Floor of a rational, written so that the kernel can evaluate it. -/
def ratFloor (q : ℚ) : ℤ := q.num / q.den

/-- Round-half-to-even on rationals, the tie rule of Python's builtin
`round`. -/
def roundHalfEven (q : ℚ) : ℤ :=
  let f := ratFloor q
  if q - f < 1 / 2 then f
  else if 1 / 2 < q - f then f + 1
  else if f % 2 = 0 then f else f + 1

/-- Model of Python `round(x, n)`: round `x` to `n` decimal places. -/
def pyRound (q : ℚ) (n : ℕ) : ℚ :=
  (roundHalfEven (q * 10 ^ n) : ℚ) / 10 ^ n

/-- The raw scalar values produced by librosa before any rounding
(detector.py lines 47-66).  Librosa itself is an external collaborator, so
these arrive as inputs of the model. -/
structure RawFeatures where
  duration : ℚ
  pitch_mean : ℚ
  pitch_std : ℚ
  zcr : ℚ
  centroid : ℚ
  flatness : ℚ
  silence_ratio_ : ℚ
deriving DecidableEq, Repr

/-- The features dict built by `Detector.extract_features`
(detector.py lines 68-76).  The field written `silence_ratio` in the source
carries a trailing underscore here.  Note the source rounds `silence_ratio`
to 2 decimal places and leaves `duration` unrounded. -/
structure Features where
  duration : ℚ
  pitch_mean_hz : ℚ
  pitch_variation_hz : ℚ
  zero_crossing_rate : ℚ
  spectral_centroid : ℚ
  spectral_flatness : ℚ
  silence_ratio_ : ℚ
deriving DecidableEq, Repr

/-- The rounding applied by `Detector.extract_features` to librosa's raw
values (detector.py lines 68-76). -/
def roundFeatures (raw : RawFeatures) : Features where
  duration := raw.duration
  pitch_mean_hz := pyRound raw.pitch_mean 2
  pitch_variation_hz := pyRound raw.pitch_std 2
  zero_crossing_rate := pyRound raw.zcr 4
  spectral_centroid := pyRound raw.centroid 2
  spectral_flatness := pyRound raw.flatness 4
  silence_ratio_ := pyRound raw.silence_ratio_ 2

/-- Model of `Detector.extract_features` (detector.py lines 41-79):
`librosa` stands for the library computation, returning `none` when any of
it throws (the `except` branch returns `None`). -/
def extract_features (librosa : List Nat → Option RawFeatures)
    (audio_bytes : List Nat) : Option Features :=
  (librosa audio_bytes).map roundFeatures

/-- Opening text of the forensics prompt, up to the first feature line. -/
def promptHeader : String :=
  "\n        Act as an Audio Forensics Expert. Analyze these acoustic features extracted from a voice clip to detect if it is AI-Generated (Deepfake) or Human.\n\n        ### Acoustic Features:\n        "

/-- The newline-plus-indent between two feature lines of the prompt. -/
def promptSep : String := "\n        "

/-- Closing text of the prompt: the rules, the instruction and the JSON
schema (the braces of the f-string's doubled braces). -/
def promptTail : String :=
  "\n\n        ### Rules:\n        1. **Robotic Pitch**: Very low pitch variation (< 20Hz) is a strong AI indicator.\n        2. **Perfect Audio**: Extremely low spectral flatness or silence ratio (no breaths) is suspicious.\n        3. **Naturalness**: High zero crossing rate often indicates natural breathiness/fricatives (Human).\n\n        Based on these numbers, classify the audio.\n\n        Return strictly JSON:\n        \x7b\n            \"is_ai_generated\": boolean,\n            \"confidence_score\": float (0.0-1.0),\n            \"explanation\": \"string (Max 15 words, crisp and direct reason)\"\n        \x7d\n        "

/-- The duration line of the prompt. -/
def durChunk (f : Features) : String :=
  "- Duration: " ++ toString f.duration ++ " seconds"

/-- The pitch-mean line of the prompt, with its interpretive hint. -/
def pmChunk (f : Features) : String :=
  "- Pitch Mean: " ++ toString f.pitch_mean_hz ++ " Hz (Avg human ~100-250Hz)"

/-- The pitch-variation line of the prompt, with its interpretive hint. -/
def pvChunk (f : Features) : String :=
  "- Pitch Variation (Std Dev): " ++ toString f.pitch_variation_hz
    ++ " Hz (Low = Monotone/Robotic)"

/-- The zero-crossing-rate line of the prompt, with its hint. -/
def zcChunk (f : Features) : String :=
  "- Zero Crossing Rate: " ++ toString f.zero_crossing_rate
    ++ " (High = Noisy/Breathy)"

/-- The spectral-flatness line of the prompt, with its hint. -/
def sfChunk (f : Features) : String :=
  "- Spectral Flatness: " ++ toString f.spectral_flatness
    ++ " (High = White Noise/Digital; Very Low = Tonal)"

/-- The silence-ratio line of the prompt, with its hint. -/
def srChunk (f : Features) : String :=
  "- Silence Ratio: " ++ toString (Features.silence_ratio_ f)
    ++ " (Absence of pauses is suspicious)"

/-- The forensics prompt built by `Detector.analyze_audio`
(detector.py lines 94-118): the f-string template with the features dict
values interpolated, written as the concatenation of its header, its six
value lines and its tail.  The source interpolates five of the six scalar
features plus the duration; `spectral_centroid` does not occur in the
f-string. -/
def buildPrompt (f : Features) : String :=
  promptHeader ++ durChunk f ++ promptSep ++ pmChunk f ++ promptSep
    ++ pvChunk f ++ promptSep ++ zcChunk f ++ promptSep ++ sfChunk f
    ++ promptSep ++ srChunk f ++ promptTail

/-- The pydantic schema `DetectionResult` (detector.py lines 22-25): the
validated shape of an LLM reply. -/
structure DetectionResult where
  is_ai_generated : Bool
  confidence_score : ℚ
  explanation : String
deriving DecidableEq, Repr

/-- Outcome of one LLM attempt, as classified by the body of the retry
loop (detector.py lines 121-144): the API call raised, or the reply text
failed `json.loads` / pydantic validation, or it validated to a
`DetectionResult`.  The try/except treats the first two identically. -/
inductive AttemptOutcome where
  | apiError
  | badReply (content : String)
  | ok (r : DetectionResult)
deriving DecidableEq, Repr

/-- Whether an attempt outcome is a validated reply. -/
def AttemptOutcome.isOk : AttemptOutcome → Bool
  | .ok _ => true
  | _ => false

/-- The `max_retries` attribute set in `Detector.__init__`. -/
def max_retries : Nat := 3

/-- The `for attempt in range(self.max_retries)` loop
(detector.py lines 120-144), with the external LLM behaviour supplied as an
oracle from attempt index and prompt to outcome.  Returns the first
validated reply (or `none`), the number of LLM calls made, and the number
of `time.sleep(1)` calls executed — the source sleeps once after every
failed attempt. -/
def runAttempts (oracle : Nat → String → AttemptOutcome) (prompt : String) :
    Nat → Nat → Option DetectionResult × Nat × Nat
  | _, 0 => (none, 0, 0)
  | attempt, remaining + 1 =>
    match oracle attempt prompt with
    | .ok r => (some r, 1, 0)
    | _ =>
      let rest := runAttempts oracle prompt (attempt + 1) remaining
      (rest.1, rest.2.1 + 1, rest.2.2 + 1)

/-- The dict returned by `Detector.analyze_audio` (response shape). -/
structure RespDict where
  classification : String
  confidenceScore : ℚ
  explanation : String
deriving DecidableEq, Repr

/-- Observable outcome of one `analyze_audio` call: the returned dict, the
prompt sent to the LLM (`none` when no LLM call was made), the number of
LLM calls, and the number of 1-second sleeps. -/
structure AnalyzeOutcome where
  result : RespDict
  promptUsed : Option String
  llm_calls : Nat
  sleeps : Nat
deriving DecidableEq, Repr

/-- Model of `Detector.analyze_audio` (detector.py lines 81-150): extract
features (falling back when that fails), build the prompt, run up to
`max_retries` LLM attempts, map the first validated reply to the response
dict, and fall back to the fixed default when every attempt fails.  The
Python function catches every exception inside the loop, so the model is a
total function. -/
def analyze_audio (librosa : List Nat → Option RawFeatures)
    (oracle : Nat → String → AttemptOutcome) (audio_bytes : List Nat) :
    AnalyzeOutcome :=
  match extract_features librosa audio_bytes with
  | none =>
    { result := { classification := "HUMAN", confidenceScore := 0,
                  explanation := "Feature extraction failed. Defaulting to Human." }
      promptUsed := none, llm_calls := 0, sleeps := 0 }
  | some features =>
    let prompt := buildPrompt features
    match runAttempts oracle prompt 0 max_retries with
    | (some validated, calls, sleeps) =>
      { result := { classification :=
                      if validated.is_ai_generated then "AI_GENERATED" else "HUMAN",
                    confidenceScore := validated.confidence_score,
                    explanation := validated.explanation }
        promptUsed := some prompt, llm_calls := calls, sleeps := sleeps }
    | (none, calls, sleeps) =>
      { result := { classification := "HUMAN", confidenceScore := 0,
                    explanation := "Analysis failed. Defaulting to Human." }
        promptUsed := some prompt, llm_calls := calls, sleeps := sleeps }

set_option maxRecDepth 10000

/-- Abstract interface to pydub's `AudioSegment` MP3 handling, the external
codec `trim_audio` relies on.  A decoded segment is its list of millisecond
slices, so `List.length` is pydub's `len(audio)` (duration in ms) and
`List.take` is pydub's slicing `audio[:n]`.  The `roundtrip` law is the
re-encoding tolerance the spec appeals to: exporting a segment yields bytes
that decode again, to a segment of equal duration. -/
structure Codec where
  from_file : List Nat → Except String (List Int)
  exportMp3 : List Int → List Nat
  roundtrip : ∀ seg, ∃ seg2, from_file (exportMp3 seg) = .ok seg2 ∧ seg2.length = seg.length

/-- Model of `trim_audio` (utils.py lines 20-39): decode as MP3, slice to
the first `max_duration_ms` milliseconds when longer, re-encode in every
case, and wrap any codec failure in a ValueError carrying the cause. -/
def trim_audio (c : Codec) (audio_bytes : List Nat)
    (max_duration_ms : Nat := 30000) : Except String (List Nat) :=
  match c.from_file audio_bytes with
  | .error e => .error ("Error trimming audio: " ++ e)
  | .ok audio =>
    let audio := if max_duration_ms < audio.length then List.take max_duration_ms audio else audio
    .ok (c.exportMp3 audio)

/-- A tiny concrete codec used to instantiate the codec-parametric
theorems: a leading marker byte, then one byte per millisecond.  The empty
byte string is not valid audio. -/
def mp3Codec : Codec where
  from_file bs :=
    match bs with
    | [] => .error "Decoding failed. ffmpeg returned error code: 1"
    | _ :: rest => .ok (rest.map Int.ofNat)
  exportMp3 seg := 0 :: seg.map Int.toNat
  roundtrip := by
    intro seg
    exact ⟨(seg.map Int.toNat).map Int.ofNat, rfl, by simp⟩

/-- Per-character lowercasing, the model of Python `str.lower()` (the
inputs of interest are ASCII format names). -/
def pyLower (s : String) : String := String.mk (s.data.map Char.toLower)

/-- The request body schema `VoiceDetectionRequest` (main.py lines 23-26). -/
structure VoiceDetectionRequest where
  language : String
  audioFormat : String
  audioBase64 : String
deriving DecidableEq, Repr

/-- The JSON bodies returned by the endpoint (always HTTP 200). -/
inductive ApiResponse where
  | success (language classification : String) (confidenceScore : ℚ) (explanation : String)
  | error (message : String)
deriving DecidableEq, Repr

/-- The `status` field of a response body. -/
def ApiResponse.status : ApiResponse → String
  | .success .. => "success"
  | .error _ => "error"

/-- The processing steps the endpoint can invoke after its guards. -/
inductive Op where
  | decodeOp
  | trimOp
  | detectOp
deriving DecidableEq, Repr

/-- Model of the `detect_voice` endpoint (main.py lines 30-85): API-key
guard, then format guard, then decode → trim (30000 ms) → analyze, with
decode/trim ValueErrors surfaced as error bodies.  Besides the response it
returns the list of processing operations that were invoked, in order, so
that the guards' short-circuiting is observable. -/
def detect_voice (server_api_key : String) (x_api_key : Option String)
    (body : VoiceDetectionRequest) (codec : Codec)
    (librosa : List Nat → Option RawFeatures)
    (oracle : Nat → String → AttemptOutcome) : ApiResponse × List Op :=
  if x_api_key ≠ some server_api_key then
    (.error "Invalid API key", [])
  else if pyLower body.audioFormat ≠ "mp3" then
    (.error "Only mp3 format is supported", [])
  else
    match decode_audio body.audioBase64 with
    | .error e => (.error e, [.decodeOp])
    | .ok audio_bytes =>
      match trim_audio codec audio_bytes 30000 with
      | .error e => (.error e, [.decodeOp, .trimOp])
      | .ok trimmed =>
        let out := analyze_audio librosa oracle trimmed
        (.success body.language out.result.classification
           out.result.confidenceScore out.result.explanation,
         [.decodeOp, .trimOp, .detectOp])

/-- Example raw feature values (10 s clip, 150 Hz mean pitch, 30 Hz
variation, zcr 0.05, centroid 2000 Hz, flatness 0.1, silence 0.1234) used
to instantiate the detector theorems. -/
def rawEx : RawFeatures :=
  { duration := 10, pitch_mean := 150, pitch_std := 30, zcr := 1 / 20,
    centroid := 2000, flatness := 1 / 10, silence_ratio_ := 1234 / 10000 }

/-- Two feature records that differ only in `spectral_centroid`. -/
def featA : Features :=
  { duration := 10, pitch_mean_hz := 150, pitch_variation_hz := 30,
    zero_crossing_rate := 1 / 20, spectral_centroid := 2000,
    spectral_flatness := 1 / 10, silence_ratio_ := 1 / 5 }

/-- Like `featA` with a different `spectral_centroid`. -/
def featB : Features :=
  { featA with spectral_centroid := 9999 }

/-- The rational `q` is a decimal with at most `n` places. -/
def hasDecimals (n : ℕ) (q : ℚ) : Prop := (q * 10 ^ n).den = 1

/-- An explanation far beyond the informal 15-word cap mentioned in the
prompt text. -/
def longExplanation : String :=
  "This explanation clearly exceeds the informal fifteen word cap stated in the prompt text because it simply keeps going on and on without any enforcement."

example : b64decode "QUFB" = .ok [65, 65, 65] := rfl
example : b64decode "QQ==" = .ok [65] := rfl
example : b64decode "QUE=" = .ok [65, 65] := rfl
example : b64decode "QQ" = .error "Incorrect padding" := rfl
example : b64decode "!" = .ok [] := rfl
example : decode_audio "data:audio/mp3;base64,QUFB" = .ok [65, 65, 65] := rfl
example : decode_audio "base64,base64,QUFB" = .ok [] := rfl

theorem ratFloor_eq_floor (q : ℚ) : ratFloor q = ⌊q⌋ := Rat.floor_def.symm

theorem strAppend_assoc (a b c : String) : a ++ b ++ c = a ++ (b ++ c) := by
  cases a with | mk da => cases b with | mk db => cases c with | mk dc =>
  show String.mk (da ++ db ++ dc) = String.mk (da ++ (db ++ dc))
  rw [List.append_assoc]

/-! ### Helper lemmas about the retry loop -/

theorem runAttempts_calls_le (o : Nat → String → AttemptOutcome) (p : String) :
    ∀ n a, (runAttempts o p a n).2.1 ≤ n := by
  intro n
  induction n with
  | zero => intro a; simp [runAttempts]
  | succ k ih =>
    intro a
    cases h : o a p with
    | ok r => simp [runAttempts, h]
    | apiError =>
      simpa [runAttempts, h] using Nat.succ_le_succ (ih (a + 1))
    | badReply s =>
      simpa [runAttempts, h] using Nat.succ_le_succ (ih (a + 1))

theorem runAttempts_sleeps_calls (o : Nat → String → AttemptOutcome) (p : String) :
    ∀ n a, (runAttempts o p a n).2.2 + 1 = (runAttempts o p a n).2.1 ∨
      ((runAttempts o p a n).1 = none ∧ (runAttempts o p a n).2.2 = (runAttempts o p a n).2.1) := by
  intro n
  induction n with
  | zero => intro a; exact Or.inr ⟨rfl, rfl⟩
  | succ k ih =>
    intro a
    cases h : o a p with
    | ok r => simp [runAttempts, h]
    | apiError =>
      rcases ih (a + 1) with h1 | ⟨h1, h2⟩
      · exact Or.inl (by simp [runAttempts, h]; omega)
      · exact Or.inr (by simp [runAttempts, h, h1, h2])
    | badReply s =>
      rcases ih (a + 1) with h1 | ⟨h1, h2⟩
      · exact Or.inl (by simp [runAttempts, h]; omega)
      · exact Or.inr (by simp [runAttempts, h, h1, h2])

theorem runAttempts_all_fail (o : Nat → String → AttemptOutcome) (p : String) :
    ∀ n a, (∀ i q, a ≤ i → i < a + n → AttemptOutcome.isOk (o i q) = false) →
    runAttempts o p a n = (none, n, n) := by
  intro n
  induction n with
  | zero => intro a _; rfl
  | succ k ih =>
    intro a hfail
    have ha : AttemptOutcome.isOk (o a p) = false :=
      hfail a p (Nat.le_refl a) (by omega)
    have hrest := ih (a + 1) (fun i q h1 h2 => hfail i q (by omega) (by omega))
    cases h : o a p with
    | ok r => rw [h] at ha; simp [AttemptOutcome.isOk] at ha
    | apiError => simp [runAttempts, h, hrest]
    | badReply s => simp [runAttempts, h, hrest]

/-! ### C1 -/

/-- C1: the retry loop of `analyze_audio` makes at most `max_retries = 3`
LLM calls; every failed attempt is followed by one 1-second sleep (so the
sleep count is the call count, minus one exactly when some attempt
succeeded); a first reply that validates yields exactly one LLM call and
the mapped result, with `is_ai_generated` true mapped to "AI_GENERATED"
and false to "HUMAN"; and two malformed replies followed by a validating
one yield exactly three calls and the attempt-3 result. -/
theorem C1_retry_loop :
    (∀ librosa oracle audio_bytes,
       (analyze_audio librosa oracle audio_bytes).llm_calls ≤ max_retries) ∧
    (∀ librosa oracle audio_bytes,
       (analyze_audio librosa oracle audio_bytes).sleeps + 1 =
           (analyze_audio librosa oracle audio_bytes).llm_calls ∨
       (analyze_audio librosa oracle audio_bytes).sleeps =
           (analyze_audio librosa oracle audio_bytes).llm_calls) ∧
    (∀ (raw : RawFeatures) (oracle : Nat → String → AttemptOutcome)
       (audio_bytes : List Nat) (r : DetectionResult),
       analyze_audio (fun _ => some raw)
           (fun n q => if n = 0 then .ok r else oracle n q) audio_bytes =
         { result := { classification :=
                         if r.is_ai_generated then "AI_GENERATED" else "HUMAN",
                       confidenceScore := r.confidence_score,
                       explanation := r.explanation }
           promptUsed := some (buildPrompt (roundFeatures raw))
           llm_calls := 1, sleeps := 0 }) ∧
    (∀ (raw : RawFeatures) (oracle : Nat → String → AttemptOutcome)
       (audio_bytes : List Nat) (r : DetectionResult) (s1 s2 : String),
       analyze_audio (fun _ => some raw)
           (fun n q => if n = 0 then .badReply s1 else if n = 1 then .badReply s2
                       else if n = 2 then .ok r else oracle n q) audio_bytes =
         { result := { classification :=
                         if r.is_ai_generated then "AI_GENERATED" else "HUMAN",
                       confidenceScore := r.confidence_score,
                       explanation := r.explanation }
           promptUsed := some (buildPrompt (roundFeatures raw))
           llm_calls := 3, sleeps := 2 }) := by
  refine ⟨?_, ?_, ?_, ?_⟩
  · intro librosa oracle audio_bytes
    cases hex : extract_features librosa audio_bytes with
    | none => simp [analyze_audio, hex, max_retries]
    | some f =>
      have h := runAttempts_calls_le oracle (buildPrompt f) max_retries 0
      rcases hr : runAttempts oracle (buildPrompt f) 0 max_retries with ⟨res, calls, slps⟩
      rw [hr] at h
      cases res <;> simpa [analyze_audio, hex, hr] using h
  · intro librosa oracle audio_bytes
    cases hex : extract_features librosa audio_bytes with
    | none => simp [analyze_audio, hex]
    | some f =>
      have h := runAttempts_sleeps_calls oracle (buildPrompt f) max_retries 0
      rcases hr : runAttempts oracle (buildPrompt f) 0 max_retries with ⟨res, calls, slps⟩
      rw [hr] at h
      cases res with
      | none => simp [analyze_audio, hex, hr]; simpa using h
      | some v =>
        simp [analyze_audio, hex, hr]
        rcases h with h | ⟨h1, _⟩
        · exact Or.inl (by simpa using h)
        · simp at h1
  · intro raw oracle audio_bytes r
    rfl
  · intro raw oracle audio_bytes r s1 s2
    rfl

/-! ### C2 -/

/-- C2: when every one of the three attempts fails, `analyze_audio`
returns the fixed fallback dict (classification "HUMAN", confidenceScore
0.0, explanation "Analysis failed. Defaulting to Human.") after exactly 3
LLM calls, and when feature extraction fails it returns the analogous
fallback ("Feature extraction failed. Defaulting to Human.") without any
LLM call; the model is a total function, reflecting that the Python code
catches every exception on these paths and raises nothing. -/
theorem C2_fallback (librosa : List Nat → Option RawFeatures)
    (oracle : Nat → String → AttemptOutcome) (audio_bytes : List Nat)
    (hfail : ∀ i q, i < max_retries → AttemptOutcome.isOk (oracle i q) = false) :
    (∀ raw, librosa audio_bytes = some raw →
       analyze_audio librosa oracle audio_bytes =
         { result := { classification := "HUMAN", confidenceScore := 0,
                       explanation := "Analysis failed. Defaulting to Human." }
           promptUsed := some (buildPrompt (roundFeatures raw))
           llm_calls := 3, sleeps := 3 }) ∧
    (librosa audio_bytes = none →
       analyze_audio librosa oracle audio_bytes =
         { result := { classification := "HUMAN", confidenceScore := 0,
                       explanation := "Feature extraction failed. Defaulting to Human." }
           promptUsed := none, llm_calls := 0, sleeps := 0 }) := by
  constructor
  · intro raw hraw
    have hex : extract_features librosa audio_bytes = some (roundFeatures raw) := by
      simp [extract_features, hraw]
    have hr : runAttempts oracle (buildPrompt (roundFeatures raw)) 0 3 = (none, 3, 3) :=
      runAttempts_all_fail oracle (buildPrompt (roundFeatures raw)) max_retries 0
        (fun i q _ h2 => hfail i q (by omega))
    simp [analyze_audio, hex, hr, max_retries]
  · intro hraw
    have hex : extract_features librosa audio_bytes = none := by
      simp [extract_features, hraw]
    simp [analyze_audio, hex]

/-- Witness for C2: both fallbacks at concrete inputs (an oracle whose API
call always raises, over a 1-element byte string). -/
theorem C2_fallback_witness :
    analyze_audio (fun _ => some rawEx) (fun _ _ => .apiError) [0] =
      { result := { classification := "HUMAN", confidenceScore := 0,
                    explanation := "Analysis failed. Defaulting to Human." }
        promptUsed := some (buildPrompt (roundFeatures rawEx))
        llm_calls := 3, sleeps := 3 } ∧
    analyze_audio (fun _ => none) (fun _ _ => .apiError) [0] =
      { result := { classification := "HUMAN", confidenceScore := 0,
                    explanation := "Feature extraction failed. Defaulting to Human." }
        promptUsed := none, llm_calls := 0, sleeps := 0 } :=
  ⟨(C2_fallback (fun _ => some rawEx) (fun _ _ => .apiError) [0]
      (fun _ _ _ => rfl)).1 rawEx rfl,
   (C2_fallback (fun _ => none) (fun _ _ => .apiError) [0]
      (fun _ _ _ => rfl)).2 rfl⟩

/-! ### C7 -/

/-- C7: every dict `analyze_audio` returns carries a classification that
is exactly "AI_GENERATED" or "HUMAN", while the confidence score is not
range-checked: a schema-valid reply with confidence 1.5 comes back with
confidenceScore 1.5 unchanged. -/
theorem C7_classification_values :
    (∀ librosa oracle audio_bytes,
       (analyze_audio librosa oracle audio_bytes).result.classification = "AI_GENERATED" ∨
       (analyze_audio librosa oracle audio_bytes).result.classification = "HUMAN") ∧
    (∀ raw audio_bytes,
       (analyze_audio (fun _ => some raw)
           (fun _ _ => .ok { is_ai_generated := true, confidence_score := 3 / 2,
                             explanation := "Out of range score" })
           audio_bytes).result.confidenceScore = 3 / 2) := by
  constructor
  · intro librosa oracle audio_bytes
    cases hex : extract_features librosa audio_bytes with
    | none => simp [analyze_audio, hex]
    | some f =>
      rcases hr : runAttempts oracle (buildPrompt f) 0 max_retries with ⟨res, calls, slps⟩
      cases res with
      | none => simp [analyze_audio, hex, hr]
      | some v =>
        cases hb : v.is_ai_generated <;> simp [analyze_audio, hex, hr, hb]
  · intro raw audio_bytes
    rfl

/-! ### C10 -/

/-- C10: the 15-word cap on the explanation lives only in the prompt text;
whenever some attempt's reply validates, the explanation string is
returned verbatim, whatever its length. -/
theorem C10_explanation_verbatim (librosa : List Nat → Option RawFeatures)
    (oracle : Nat → String → AttemptOutcome) (audio_bytes : List Nat)
    (raw : RawFeatures) (r : DetectionResult) (calls slps : Nat)
    (hraw : librosa audio_bytes = some raw)
    (hrun : runAttempts oracle (buildPrompt (roundFeatures raw)) 0 max_retries =
      (some r, calls, slps)) :
    (analyze_audio librosa oracle audio_bytes).result.explanation = r.explanation := by
  have hex : extract_features librosa audio_bytes = some (roundFeatures raw) := by
    simp [extract_features, hraw]
  simp [analyze_audio, hex, hrun]

/-- Witness for C10: a validated reply whose explanation is 25 words long
is returned verbatim. -/
theorem C10_explanation_verbatim_witness :
    (analyze_audio (fun _ => some rawEx)
        (fun _ _ => .ok { is_ai_generated := false, confidence_score := 1 / 2,
                          explanation := longExplanation }) [0]).result.explanation =
      longExplanation :=
  C10_explanation_verbatim (fun _ => some rawEx) _ [0] rawEx
    { is_ai_generated := false, confidence_score := 1 / 2, explanation := longExplanation }
    1 0 rfl rfl

/-! ### C3 -/

/-- C3: a request with a missing or wrong `x-api-key` yields the
"Invalid API key" error body (even when the format is also wrong — the key
check fires first) and invokes none of decode, trim, detect; a request
with the right key but a non-mp3 format (case-insensitively) yields the
format error body, again invoking nothing. -/
theorem C3_guards (server_api_key : String) (x_api_key : Option String)
    (body : VoiceDetectionRequest) (codec : Codec)
    (librosa : List Nat → Option RawFeatures)
    (oracle : Nat → String → AttemptOutcome) :
    (x_api_key ≠ some server_api_key →
       detect_voice server_api_key x_api_key body codec librosa oracle =
         (.error "Invalid API key", []) ∧
       (detect_voice server_api_key x_api_key body codec librosa oracle).1.status =
         "error") ∧
    (pyLower body.audioFormat ≠ "mp3" →
       detect_voice server_api_key (some server_api_key) body codec librosa oracle =
         (.error "Only mp3 format is supported", []) ∧
       (detect_voice server_api_key (some server_api_key) body codec
           librosa oracle).1.status = "error") := by
  constructor
  · intro h
    have hd : detect_voice server_api_key x_api_key body codec librosa oracle =
        (.error "Invalid API key", []) := by
      simp [detect_voice, h]
    exact ⟨hd, by rw [hd]; rfl⟩
  · intro h
    have hd : detect_voice server_api_key (some server_api_key) body codec
        librosa oracle = (.error "Only mp3 format is supported", []) := by
      simp [detect_voice, h]
    exact ⟨hd, by rw [hd]; rfl⟩

/-- Witness for C3: a request without a key is rejected with the API-key
error, and a request with the right key but format "WAV" is rejected with
the format error, both with an empty operation trace. -/
theorem C3_guards_witness :
    detect_voice "sk_test_123456789" none
      { language := "en", audioFormat := "mp3", audioBase64 := "QUFB" }
      mp3Codec (fun _ => some rawEx) (fun _ _ => .apiError) =
        (.error "Invalid API key", []) ∧
    detect_voice "sk_test_123456789" (some "sk_test_123456789")
      { language := "en", audioFormat := "WAV", audioBase64 := "QUFB" }
      mp3Codec (fun _ => some rawEx) (fun _ _ => .apiError) =
        (.error "Only mp3 format is supported", []) :=
  ⟨((C3_guards "sk_test_123456789" none
      { language := "en", audioFormat := "mp3", audioBase64 := "QUFB" }
      mp3Codec (fun _ => some rawEx) (fun _ _ => .apiError)).1 (by simp)).1,
   ((C3_guards "sk_test_123456789" (some "sk_test_123456789")
      { language := "en", audioFormat := "WAV", audioBase64 := "QUFB" }
      mp3Codec (fun _ => some rawEx) (fun _ _ => .apiError)).2 (by decide)).1⟩

/-! ### C4 -/

/-- Counterexample for C4: the claim says `decode_audio` strips everything
up to and including the FIRST occurrence of "base64," and that prepending
any prefix ending in "base64," to a valid payload leaves the decoded bytes
unchanged.  The code instead takes `split("base64,")[1]`, the segment
between the first and second occurrences: with the prefix
"base64,base64," (which ends in "base64,") before the valid payload
"QUFB", the code decodes the empty segment and returns `b""` instead of
"QUFB"'s bytes. -/
theorem C4_counterexample :
    "base64,base64," = "base64," ++ "base64," ∧
    b64decode "QUFB" = .ok [65, 65, 65] ∧
    decode_audio ("base64,base64," ++ "QUFB") = .ok [] ∧
    decode_audio "QUFB" = .ok [65, 65, 65] ∧
    decode_audio ("base64,base64," ++ "QUFB") ≠ decode_audio "QUFB" := by
  refine ⟨rfl, rfl, rfl, rfl, ?_⟩
  intro h
  rw [show decode_audio ("base64,base64," ++ "QUFB") = .ok [] from rfl,
      show decode_audio "QUFB" = .ok [65, 65, 65] from rfl] at h
  simp at h

/-- C4 amended: `decode_audio` splits on every occurrence of "base64,"
and keeps the second segment.  Hence for a prefix `p = q ++ "base64,"`
containing exactly one occurrence of the separator (so that the composite
splits as `[q, s]`) and a payload `s` free of the separator, decoding the
prefixed string and the bare payload agree, both giving the base64 bytes
of `s`. -/
theorem C4_prefix_strip (q p s : String) (bs : List Nat)
    (hp : p = q ++ "base64,")
    (hsplit : pySplit "base64," (p ++ s) = [q, s])
    (hs : pySplit "base64," s = [s])
    (hb : b64decode s = .ok bs) :
    decode_audio (p ++ s) = .ok bs ∧ decode_audio s = .ok bs := by
  subst hp
  have h1 : stripB64Header (q ++ "base64," ++ s) = s := by
    simp only [stripB64Header, hsplit]
    rfl
  have h2 : stripB64Header s = s := by
    simp only [stripB64Header, hs]
    rfl
  unfold decode_audio
  rw [h1, h2, hb]
  exact ⟨rfl, rfl⟩

/-- Witness for C4: with the ordinary data-URI prefix
"data:audio/mp3;base64," both forms decode to the same three bytes. -/
theorem C4_prefix_strip_witness :
    pySplit "base64," ("data:audio/mp3;base64," ++ "QUFB") =
      ["data:audio/mp3;", "QUFB"] ∧
    decode_audio ("data:audio/mp3;base64," ++ "QUFB") = .ok [65, 65, 65] ∧
    decode_audio "QUFB" = .ok [65, 65, 65] :=
  ⟨rfl,
   (C4_prefix_strip "data:audio/mp3;" "data:audio/mp3;base64," "QUFB"
      [65, 65, 65] rfl rfl rfl rfl).1,
   (C4_prefix_strip "data:audio/mp3;" "data:audio/mp3;base64," "QUFB"
      [65, 65, 65] rfl rfl rfl rfl).2⟩

/-! ### C5 -/

/-- Counterexample for C5: the claim says every payload containing
characters outside the base64 alphabet makes `decode_audio` raise.  But
Python's `b64decode` (validate=False) silently discards such characters:
on the out-of-alphabet payload "!" the function returns `b""`, raising
nothing. -/
theorem C5_counterexample :
    b64Index '!' = none ∧ decode_audio "!" = .ok [] :=
  ⟨rfl, rfl⟩

/-- C5 amended: characters outside the alphabet are discarded rather than
rejected; whenever the underlying base64 decode of the (possibly
header-stripped) payload does fail — e.g. on a bad length/padding of the
retained characters — `decode_audio` raises a ValueError whose message
contains that underlying cause, and never returns bytes. -/
theorem C5_error_wrapping (s e : String)
    (h : b64decode (stripB64Header s) = .error e) :
    decode_audio s = .error ("Invalid Base64 audio data: " ++ e) ∧
    ∃ pre, decode_audio s = .error (pre ++ e) := by
  unfold decode_audio
  rw [h]
  exact ⟨rfl, "Invalid Base64 audio data: ", rfl⟩

/-- Witness for C5: the two-character payload "QQ" has incorrect padding,
and `decode_audio` raises the wrapped error. -/
theorem C5_error_wrapping_witness :
    b64decode (stripB64Header "QQ") = .error "Incorrect padding" ∧
    decode_audio "QQ" =
      .error ("Invalid Base64 audio data: " ++ "Incorrect padding") :=
  ⟨rfl, (C5_error_wrapping "QQ" "Incorrect padding" rfl).1⟩

/-! ### C6 -/

/-- C6: for every codec satisfying the re-encoding round-trip law,
`trim_audio` decodes its input, truncates to exactly `max_duration_ms`
from the start only when the decoded duration exceeds it, re-encodes in
every case (the output is literally the exported segment, truncated or
not), and the output's decoded duration is `min` of the original duration
and the maximum; on input the codec cannot decode it raises an error
wrapping the underlying cause. -/
theorem C6_trim_audio (c : Codec) (audio_bytes : List Nat)
    (max_duration_ms : Nat) :
    (∀ e, c.from_file audio_bytes = .error e →
       trim_audio c audio_bytes max_duration_ms =
         .error ("Error trimming audio: " ++ e)) ∧
    (∀ seg, c.from_file audio_bytes = .ok seg →
       trim_audio c audio_bytes max_duration_ms =
         .ok (c.exportMp3 (if max_duration_ms < seg.length
                           then List.take max_duration_ms seg else seg)) ∧
       ∃ seg2, c.from_file (c.exportMp3 (if max_duration_ms < seg.length
                           then List.take max_duration_ms seg else seg)) = .ok seg2 ∧
         seg2.length = min seg.length max_duration_ms) := by
  constructor
  · intro e he
    unfold trim_audio
    rw [he]
  · intro seg hseg
    constructor
    · unfold trim_audio
      rw [hseg]
    · obtain ⟨seg2, h1, h2⟩ := c.roundtrip
        (if max_duration_ms < seg.length then List.take max_duration_ms seg else seg)
      refine ⟨seg2, h1, ?_⟩
      rw [h2]
      by_cases h : max_duration_ms < seg.length
      · simp only [if_pos h, List.length_take]
        omega
      · simp only [if_neg h]
        omega

/-- Witness for C6: with the marker-byte codec, the empty byte string
fails with the wrapped decode error; a 2 ms clip trimmed to 1 ms comes
back 1 ms long; a 2 ms clip trimmed to 30000 ms comes back unchanged in
duration. -/
theorem C6_trim_audio_witness :
    trim_audio mp3Codec [] 30000 =
      .error ("Error trimming audio: " ++
        "Decoding failed. ffmpeg returned error code: 1") ∧
    (trim_audio mp3Codec [0, 5, 7] 1 = .ok [0, 5] ∧
      ∃ seg2, mp3Codec.from_file [0, 5] = .ok seg2 ∧ seg2.length = min 2 1) ∧
    (trim_audio mp3Codec [0, 5, 7] 30000 = .ok [0, 5, 7] ∧
      ∃ seg2, mp3Codec.from_file [0, 5, 7] = .ok seg2 ∧
        seg2.length = min 2 30000) :=
  ⟨(C6_trim_audio mp3Codec [] 30000).1
      "Decoding failed. ffmpeg returned error code: 1" rfl,
   (C6_trim_audio mp3Codec [0, 5, 7] 1).2 [5, 7] rfl,
   (C6_trim_audio mp3Codec [0, 5, 7] 30000).2 [5, 7] rfl⟩

/-! ### C8 -/

theorem analyze_audio_promptUsed (librosa : List Nat → Option RawFeatures)
    (oracle : Nat → String → AttemptOutcome) (audio_bytes : List Nat) :
    (analyze_audio librosa oracle audio_bytes).promptUsed =
      (extract_features librosa audio_bytes).map buildPrompt := by
  cases hex : extract_features librosa audio_bytes with
  | none => simp [analyze_audio, hex]
  | some f =>
    rcases hr : runAttempts oracle (buildPrompt f) 0 max_retries with ⟨res, calls, slps⟩
    cases res <;> simp [analyze_audio, hex, hr]

/-- Counterexample for C8: the claim says the prompt embeds all six scalar
features including `spectral_centroid`.  But the f-string never references
the centroid: two feature records differing only in `spectral_centroid`
produce the identical prompt, so the centroid value is not embedded. -/
theorem C8_counterexample :
    Features.spectral_centroid featA ≠ Features.spectral_centroid featB ∧
    buildPrompt featA = buildPrompt featB := by
  constructor
  · norm_num [featA, featB]
  · rfl

/-- C8 amended: the prompt embeds the duration plus five of the six
features — pitch mean, pitch variation, zero-crossing rate, spectral
flatness and silence ratio — each on a labelled line with its
human-readable hint; it omits `spectral_centroid` (the prompt depends only
on the other fields), and it never contains the raw audio: the prompt sent
is a function of the extracted features alone, so any two audio inputs
with equal extracted features are sent exactly the same prompt. -/
theorem C8_prompt_contents (f : Features) :
    (∃ a b, buildPrompt f = a ++ durChunk f ++ b) ∧
    (∃ a b, buildPrompt f = a ++ pmChunk f ++ b) ∧
    (∃ a b, buildPrompt f = a ++ pvChunk f ++ b) ∧
    (∃ a b, buildPrompt f = a ++ zcChunk f ++ b) ∧
    (∃ a b, buildPrompt f = a ++ sfChunk f ++ b) ∧
    (∃ a b, buildPrompt f = a ++ srChunk f ++ b) ∧
    (∀ g : Features, g.duration = f.duration →
       g.pitch_mean_hz = f.pitch_mean_hz →
       g.pitch_variation_hz = f.pitch_variation_hz →
       g.zero_crossing_rate = f.zero_crossing_rate →
       g.spectral_flatness = f.spectral_flatness →
       Features.silence_ratio_ g = Features.silence_ratio_ f →
       buildPrompt g = buildPrompt f) ∧
    (∀ (librosa : List Nat → Option RawFeatures)
       (oracle : Nat → String → AttemptOutcome) (b1 b2 : List Nat),
       librosa b1 = librosa b2 →
       (analyze_audio librosa oracle b1).promptUsed =
         (analyze_audio librosa oracle b2).promptUsed) := by
  refine ⟨?_, ?_, ?_, ?_, ?_, ?_, ?_, ?_⟩
  · exact ⟨promptHeader,
      promptSep ++ (pmChunk f ++ (promptSep ++ (pvChunk f ++ (promptSep
        ++ (zcChunk f ++ (promptSep ++ (sfChunk f ++ (promptSep
        ++ (srChunk f ++ promptTail))))))))),
      by simp only [buildPrompt, strAppend_assoc]⟩
  · exact ⟨promptHeader ++ durChunk f ++ promptSep,
      promptSep ++ (pvChunk f ++ (promptSep ++ (zcChunk f ++ (promptSep
        ++ (sfChunk f ++ (promptSep ++ (srChunk f ++ promptTail))))))),
      by simp only [buildPrompt, strAppend_assoc]⟩
  · exact ⟨promptHeader ++ durChunk f ++ promptSep ++ pmChunk f ++ promptSep,
      promptSep ++ (zcChunk f ++ (promptSep ++ (sfChunk f ++ (promptSep
        ++ (srChunk f ++ promptTail))))),
      by simp only [buildPrompt, strAppend_assoc]⟩
  · exact ⟨promptHeader ++ durChunk f ++ promptSep ++ pmChunk f ++ promptSep
        ++ pvChunk f ++ promptSep,
      promptSep ++ (sfChunk f ++ (promptSep ++ (srChunk f ++ promptTail))),
      by simp only [buildPrompt, strAppend_assoc]⟩
  · exact ⟨promptHeader ++ durChunk f ++ promptSep ++ pmChunk f ++ promptSep
        ++ pvChunk f ++ promptSep ++ zcChunk f ++ promptSep,
      promptSep ++ (srChunk f ++ promptTail),
      by simp only [buildPrompt, strAppend_assoc]⟩
  · exact ⟨promptHeader ++ durChunk f ++ promptSep ++ pmChunk f ++ promptSep
        ++ pvChunk f ++ promptSep ++ zcChunk f ++ promptSep ++ sfChunk f
        ++ promptSep,
      promptTail,
      by simp only [buildPrompt, strAppend_assoc]⟩
  · intro g h1 h2 h3 h4 h5 h6
    simp [buildPrompt, durChunk, pmChunk, pvChunk, zcChunk, sfChunk, srChunk,
      h1, h2, h3, h4, h5, h6]
  · intro librosa oracle b1 b2 hb
    rw [analyze_audio_promptUsed, analyze_audio_promptUsed]
    unfold extract_features
    rw [hb]

/-- Witness for C8: the prompt for `featA` contains its pitch-mean line;
prompt equality holds for a record agreeing on the embedded fields; and
two different byte strings with the same extracted features are sent the
same prompt. -/
theorem C8_prompt_contents_witness :
    (∃ a b, buildPrompt featA = a ++ pmChunk featA ++ b) ∧
    buildPrompt featA = buildPrompt featA ∧
    (analyze_audio (fun _ => some rawEx) (fun _ _ => .apiError) [0]).promptUsed =
      (analyze_audio (fun _ => some rawEx) (fun _ _ => .apiError) [1]).promptUsed :=
  ⟨(C8_prompt_contents featA).2.1,
   (C8_prompt_contents featA).2.2.2.2.2.2.1 featA rfl rfl rfl rfl rfl rfl,
   (C8_prompt_contents featA).2.2.2.2.2.2.2 (fun _ => some rawEx)
     (fun _ _ => .apiError) [0] [1] rfl⟩

/-! ### C9 -/

theorem roundHalfEven_sub_le (q : ℚ) : |(roundHalfEven q : ℚ) - q| ≤ 1 / 2 := by
  have hfl : ((ratFloor q : ℤ) : ℚ) ≤ q := by
    rw [ratFloor_eq_floor]; exact Int.floor_le q
  have hfu : q < ((ratFloor q : ℤ) : ℚ) + 1 := by
    rw [ratFloor_eq_floor]; exact Int.lt_floor_add_one q
  simp only [roundHalfEven]
  by_cases h1 : q - (ratFloor q : ℚ) < 1 / 2
  · rw [if_pos h1, abs_le]
    constructor <;> linarith
  · rw [if_neg h1]
    by_cases h2 : (1 : ℚ) / 2 < q - (ratFloor q : ℚ)
    · rw [if_pos h2, abs_le]
      constructor <;> [push_cast; push_cast] <;> linarith
    · rw [if_neg h2]
      have heq : q - (ratFloor q : ℚ) = 1 / 2 := le_antisymm (not_lt.1 h2) (not_lt.1 h1)
      by_cases h3 : ratFloor q % 2 = 0
      · rw [if_pos h3, abs_le]
        constructor <;> linarith
      · rw [if_neg h3, abs_le]
        constructor <;> [push_cast; push_cast] <;> linarith

theorem pyRound_mul_den (q : ℚ) (n : ℕ) : (pyRound q n * 10 ^ n).den = 1 := by
  have h10 : (10 : ℚ) ^ n ≠ 0 := by positivity
  have h : pyRound q n * 10 ^ n = ((roundHalfEven (q * 10 ^ n) : ℤ) : ℚ) := by
    unfold pyRound
    field_simp
  rw [h]
  exact Rat.den_intCast _

theorem pyRound_close (q : ℚ) (n : ℕ) : |pyRound q n - q| ≤ 1 / (2 * 10 ^ n) := by
  have h10 : (0 : ℚ) < 10 ^ n := by positivity
  have h : pyRound q n - q =
      (((roundHalfEven (q * 10 ^ n) : ℤ) : ℚ) - q * 10 ^ n) / 10 ^ n := by
    unfold pyRound
    field_simp
    ring
  rw [h, abs_div, abs_of_pos h10, ← div_div]
  have hb := roundHalfEven_sub_le (q * 10 ^ n)
  gcongr

theorem roundHalfEven_eq_of_lt (q : ℚ) (z : ℤ) (h1 : (z : ℚ) ≤ q)
    (h2 : q - z < 1 / 2) : roundHalfEven q = z := by
  have hz : ratFloor q = z := by
    rw [ratFloor_eq_floor]
    exact Int.floor_eq_iff.2 ⟨h1, by linarith⟩
  simp only [roundHalfEven, hz]
  rw [if_pos h2]

theorem pyRound_silence_of_rawEx : pyRound (1234 / 10000) 2 = 12 / 100 := by
  unfold pyRound
  rw [show ((1234 : ℚ) / 10000) * 10 ^ 2 = 1234 / 100 by norm_num,
      roundHalfEven_eq_of_lt (1234 / 100) 12 (by norm_num) (by norm_num)]
  norm_num

theorem pyRound_silence_four_places : pyRound (1234 / 10000) 4 = 1234 / 10000 := by
  unfold pyRound
  rw [show ((1234 : ℚ) / 10000) * 10 ^ 4 = 1234 by norm_num,
      roundHalfEven_eq_of_lt 1234 1234 (by norm_num) (by norm_num)]
  norm_num

/-- Counterexample for C9: the claim says the silence ratio is rounded to
4 decimal places.  On raw silence ratio 0.1234 the code produces 0.12 —
`round(x, 2)`, not `round(x, 4)` = 0.1234 — a value further from the raw
input than any 4-place rounding could be. -/
theorem C9_counterexample :
    RawFeatures.silence_ratio_ rawEx = 1234 / 10000 ∧
    (extract_features (fun _ => some rawEx) []).map Features.silence_ratio_ =
      some (12 / 100) ∧
    pyRound (1234 / 10000) 4 = 1234 / 10000 ∧
    (12 : ℚ) / 100 ≠ 1234 / 10000 ∧
    ¬ |(12 : ℚ) / 100 - 1234 / 10000| ≤ 1 / 20000 := by
  refine ⟨rfl, ?_, pyRound_silence_four_places, by norm_num, by rw [abs_le]; push_neg; norm_num⟩
  show some (Features.silence_ratio_ (roundFeatures rawEx)) = some (12 / 100)
  rw [show Features.silence_ratio_ (roundFeatures rawEx) = pyRound (1234 / 10000) 2 from rfl,
      pyRound_silence_of_rawEx]

/-- C9 amended: every feature value produced by `extract_features` is a
fixed-precision decimal within half an ulp of the raw librosa value — 2
decimal places for pitch mean, pitch variation and spectral centroid, 4
places for zero-crossing rate and spectral flatness, and (contrary to the
original claim) 2 places, not 4, for the silence ratio. -/
theorem C9_rounding (librosa : List Nat → Option RawFeatures)
    (audio_bytes : List Nat) (raw : RawFeatures) (f : Features)
    (hraw : librosa audio_bytes = some raw)
    (hf : extract_features librosa audio_bytes = some f) :
    (hasDecimals 2 f.pitch_mean_hz ∧ |f.pitch_mean_hz - raw.pitch_mean| ≤ 1 / 200) ∧
    (hasDecimals 2 f.pitch_variation_hz ∧ |f.pitch_variation_hz - raw.pitch_std| ≤ 1 / 200) ∧
    (hasDecimals 4 f.zero_crossing_rate ∧ |f.zero_crossing_rate - raw.zcr| ≤ 1 / 20000) ∧
    (hasDecimals 2 f.spectral_centroid ∧ |f.spectral_centroid - raw.centroid| ≤ 1 / 200) ∧
    (hasDecimals 4 f.spectral_flatness ∧ |f.spectral_flatness - raw.flatness| ≤ 1 / 20000) ∧
    (hasDecimals 2 (Features.silence_ratio_ f) ∧
      |Features.silence_ratio_ f - RawFeatures.silence_ratio_ raw| ≤ 1 / 200) := by
  have hfe : f = roundFeatures raw := by
    rw [extract_features, hraw] at hf
    exact (Option.some_injective _ hf).symm
  subst hfe
  have h200 : (1 : ℚ) / (2 * 10 ^ 2) = 1 / 200 := by norm_num
  have h20000 : (1 : ℚ) / (2 * 10 ^ 4) = 1 / 20000 := by norm_num
  refine ⟨⟨pyRound_mul_den _ 2, h200 ▸ pyRound_close _ 2⟩,
    ⟨pyRound_mul_den _ 2, h200 ▸ pyRound_close _ 2⟩,
    ⟨pyRound_mul_den _ 4, h20000 ▸ pyRound_close _ 4⟩,
    ⟨pyRound_mul_den _ 2, h200 ▸ pyRound_close _ 2⟩,
    ⟨pyRound_mul_den _ 4, h20000 ▸ pyRound_close _ 4⟩,
    ⟨pyRound_mul_den _ 2, h200 ▸ pyRound_close _ 2⟩⟩

/-- Witness for C9: the rounding theorem applied to the example raw
features. -/
theorem C9_rounding_witness :
    extract_features (fun _ => some rawEx) [] = some (roundFeatures rawEx) ∧
    hasDecimals 2 (roundFeatures rawEx).pitch_mean_hz ∧
    hasDecimals 4 (roundFeatures rawEx).zero_crossing_rate ∧
    hasDecimals 2 (Features.silence_ratio_ (roundFeatures rawEx)) :=
  ⟨rfl,
   ((C9_rounding (fun _ => some rawEx) [] rawEx (roundFeatures rawEx) rfl rfl).1).1,
   ((C9_rounding (fun _ => some rawEx) [] rawEx (roundFeatures rawEx) rfl rfl).2.2.1).1,
   ((C9_rounding (fun _ => some rawEx) [] rawEx (roundFeatures rawEx) rfl rfl).2.2.2.2.2).1⟩

end VoiceDetector
